import Mathlib

/-!
Verification of the Renesas thermal HAL (Thermal.cpp for the V2.0 interface,
the unnamed V1.1 implementation file, service.cpp) against its natural-language
specification.

The C++ is shallowly embedded: file system inputs become explicit parameters
(a thermal-zone directory is a list of entries with optional file contents, the
/proc/stat counters file is an optional list of lines, the per-core online files
are a lookup function), `float` becomes an inductive with NaN, infinities and an
exact rational payload, and unsigned 64-bit arithmetic is `Nat` reduced modulo
2^64 where the code overflows.  Paths of the C++ that are undefined behaviour
(fscanf on a NULL stream, scanf numeric overflow, a buffer overflow) are
modelled as `Option.none` at the call level.
-/

set_option autoImplicit false

/-! ## A model of C `float`

A float is NaN, a signed infinity, or an exact rational value.  Arithmetic that
the code performs on floats (division by 1000, equality comparison against the
`UNKNOWN_TEMPERATURE` sentinel) is modelled exactly; the rounding of real
float division only shrinks magnitudes further below `fltMax / 1000`, so the
facts proved here are insensitive to it. -/

/-! Core `Rat.add`, `Rat.mul` and `Rat.inv` are `@[irreducible]`, which blocks
kernel evaluation (`decide`) of anything built from them.  The embedding
therefore computes with `mkRat`-based equivalents, each proved equal to the
mathematical operation. -/

def qAdd (a b : ℚ) : ℚ := mkRat (a.num * b.den + b.num * a.den) (a.den * b.den)

def qMul (a b : ℚ) : ℚ := mkRat (a.num * b.num) (a.den * b.den)

def qDiv1000 (a : ℚ) : ℚ := mkRat a.num (a.den * 1000)

theorem ratNumEq (a : ℚ) : (a.num : ℚ) = a * a.den := by
  have h := Rat.num_div_den a
  have ha : ((a.den : ℚ)) ≠ 0 := by exact_mod_cast a.den_nz
  calc (a.num : ℚ) = (a.num / a.den) * a.den := by rw [div_mul_cancel₀ _ ha]
    _ = a * a.den := by rw [h]

theorem qAdd_eq (a b : ℚ) : qAdd a b = a + b := by
  unfold qAdd
  rw [Rat.mkRat_eq_div]
  have ha : ((a.den : ℚ)) ≠ 0 := by exact_mod_cast a.den_nz
  have hb : ((b.den : ℚ)) ≠ 0 := by exact_mod_cast b.den_nz
  field_simp
  rw [ratNumEq a, ratNumEq b]
  ring

theorem qMul_eq (a b : ℚ) : qMul a b = a * b := by
  unfold qMul
  rw [Rat.mkRat_eq_div]
  have ha : ((a.den : ℚ)) ≠ 0 := by exact_mod_cast a.den_nz
  have hb : ((b.den : ℚ)) ≠ 0 := by exact_mod_cast b.den_nz
  field_simp
  rw [ratNumEq a, ratNumEq b]
  ring

theorem qDiv1000_eq (a : ℚ) : qDiv1000 a = a / 1000 := by
  unfold qDiv1000
  rw [Rat.mkRat_eq_div]
  have ha : ((a.den : ℚ)) ≠ 0 := by exact_mod_cast a.den_nz
  field_simp
  rw [ratNumEq a]
  ring

inductive Flt where
  | nan : Flt
  | inf (neg : Bool) : Flt
  | val (q : ℚ) : Flt
deriving DecidableEq

/-- FLT_MAX, the largest finite single-precision value: (2 - 2^-23) * 2^127. -/
def fltMax : ℚ := 340282346638528859811704183484516925440

theorem fltMax_eq : fltMax = 2 ^ 128 - 2 ^ 104 := by norm_num [fltMax]

theorem fltMax_pos : (0 : ℚ) < fltMax := by norm_num [fltMax]

/-- A float value the hardware can actually hold: finite values are bounded by
FLT_MAX in magnitude. -/
def FltRepr : Flt → Prop
  | .val q => |q| ≤ fltMax
  | _ => True

/-- Rounding of an exactly-computed rational into the float range: far
out-of-range magnitudes overflow to infinity (strtof semantics).  Values at the
very rounding boundary of FLT_MAX may round to ±FLT_MAX in the hardware instead;
both outcomes satisfy `FltRepr`, and ±FLT_MAX is itself reachable exactly, so
nothing proved below depends on the choice. -/
def roundFlt (q : ℚ) : Flt :=
  if fltMax < q then .inf false
  else if q < -fltMax then .inf true
  else .val q

theorem roundFlt_repr (q : ℚ) : FltRepr (roundFlt q) := by
  unfold roundFlt
  split
  · trivial
  · split
    · trivial
    · exact abs_le.mpr ⟨le_of_not_lt (by assumption), le_of_not_lt (by assumption)⟩

/-- C `==` on floats: NaN compares unequal to everything (itself included). -/
def fltEq : Flt → Flt → Bool
  | .val x, .val y => decide (x = y)
  | .inf b, .inf c => b == c
  | _, _ => false

/-- C `>=` on floats: false whenever either side is NaN. -/
def fltGe : Flt → Flt → Bool
  | .nan, _ => false
  | _, .nan => false
  | .val x, .val y => decide (y ≤ x)
  | .val _, .inf b => b
  | .inf b, .val _ => !b
  | .inf b, .inf c => !b || c

/-- temp / 1000.f, exact on the rational payload (`qDiv1000 q = q / 1000` by
`qDiv1000_eq`). -/
def Flt.div1000 : Flt → Flt
  | .nan => .nan
  | .inf b => .inf b
  | .val q => .val (qDiv1000 q)

/-- UNKNOWN_TEMPERATURE from hardware/thermal.h: -FLT_MAX. -/
def UNKNOWN_TEMPERATURE : Flt := .val (-fltMax)

/-- finalizeTemperature (both files): substitute NaN for the unknown sentinel. -/
def finalizeTemperature (temperature : Flt) : Flt :=
  if fltEq temperature UNKNOWN_TEMPERATURE then .nan else temperature

/-! ## HAL data types -/

inductive ThermalStatusCode where
  | SUCCESS : ThermalStatusCode
  | FAILURE : ThermalStatusCode
deriving DecidableEq

structure ThermalStatus where
  code : ThermalStatusCode
  debugMessage : String
deriving DecidableEq

/-- TemperatureType; the code only ever produces CPU, a few others stand in for
the rest of the HIDL enum. -/
inductive TemperatureType where
  | UNKNOWN : TemperatureType
  | CPU : TemperatureType
  | GPU : TemperatureType
  | BATTERY : TemperatureType
  | SKIN : TemperatureType
deriving DecidableEq

inductive ThrottlingSeverity where
  | NONE : ThrottlingSeverity
  | LIGHT : ThrottlingSeverity
  | MODERATE : ThrottlingSeverity
  | SEVERE : ThrottlingSeverity
  | CRITICAL : ThrottlingSeverity
  | EMERGENCY : ThrottlingSeverity
  | SHUTDOWN : ThrottlingSeverity
deriving DecidableEq

structure Temperature_1_0 where
  type : TemperatureType
  name : String
  currentValue : Flt
  throttlingThreshold : Flt
  shutdownThreshold : Flt
  vrThrottlingThreshold : Flt
deriving DecidableEq

structure Temperature_2_0 where
  type : TemperatureType
  name : String
  value : Flt
  throttlingStatus : ThrottlingSeverity
deriving DecidableEq

structure TemperatureThreshold where
  type : TemperatureType
  name : String
  hotThrottlingThresholds : List Flt
  coldThrottlingThresholds : List Flt
  vrThrottlingThreshold : Flt
deriving DecidableEq

structure CpuUsage where
  name : String
  active : Nat
  total : Nat
  isOnline : Bool
deriving DecidableEq

structure CoolingDevice where
  type : TemperatureType
  name : String
  currentValue : Flt
deriving DecidableEq

/-- One registration held in Thermal::callbacks_ (V2.0).  The remote interface
pointer is abstracted to a numeric identity; interfacesEqual compares it. -/
structure CallbackSetting where
  callback : Nat
  is_filter_type : Bool
  type : TemperatureType
deriving DecidableEq

/-- One /sys/class/thermal/thermal_zoneN directory entry: its name and the
contents of its `temp` and `type` files (`none` = the file cannot be opened). -/
structure ZoneEntry where
  name : String
  tempFile : Option String
  typeFile : Option String
deriving DecidableEq

/-! ## Constants and libc -/

def kThermalZone : String := "thermal_zone"

/-- strncmp(name, "thermal_zone", 12) == 0, kept kernel-computable. -/
def listPrefixOf : List Char → List Char → Bool
  | [], _ => true
  | _ :: _, [] => false
  | c :: cs, d :: ds => c == d && listPrefixOf cs ds

def strPrefixOf (p s : String) : Bool := listPrefixOf p.data s.data

def kThrottlingThreshold : Flt := .val 100

def kShutdownThreshold : Flt := .val 120

def ENOENT : Int := 2

def eioCode : Int := 5

/-- glibc/bionic strerror: the errnos this HAL uses map to their descriptions;
any out-of-range argument — in particular every negative one — produces
"Unknown error N". -/
def strerror (n : Int) : String :=
  if n = 2 then "No such file or directory"
  else if n = 5 then "Input/output error"
  else "Unknown error " ++ toString n


/-! ## Character-level parsing helpers -/

def isWs (c : Char) : Bool :=
  c == ' ' || c == '\t' || c == '\n' || c == '\r'

def skipWs : List Char → List Char
  | [] => []
  | c :: cs => if isWs c then skipWs cs else c :: cs

/-- Split a maximal leading run of decimal digits from the rest. -/
def takeDigits : List Char → List Char × List Char
  | [] => ([], [])
  | c :: cs =>
    if c.isDigit then
      let (ds, r) := takeDigits cs
      (c :: ds, r)
    else ([], c :: cs)

def digitsToNat (ds : List Char) : Nat :=
  ds.foldl (fun acc c => acc * 10 + (c.toNat - 48)) 0

/-! ## The strtof / fscanf("%f") / istream float model

A parsed float before rounding: scanf's %f (strtof) additionally accepts the
words "inf" and "nan"; istream number extraction does not. -/

inductive PreF where
  | pnan : PreF
  | pinf (neg : Bool) : PreF
  | pnum (q : ℚ) : PreF

def preToFlt : PreF → Flt
  | .pnan => .nan
  | .pinf b => .inf b
  | .pnum q => roundFlt q

theorem preToFlt_repr (p : PreF) : FltRepr (preToFlt p) := by
  cases p with
  | pnan => trivial
  | pinf b => trivial
  | pnum q => exact roundFlt_repr q

def negPreF : PreF → PreF
  | .pnan => .pnan
  | .pinf b => .pinf (!b)
  | .pnum q => .pnum (-q)

/-- A signed power of ten, kept kernel-computable via `mkRat`. -/
def pow10 (e : Int) : ℚ :=
  if 0 ≤ e then mkRat (10 ^ e.toNat) 1 else mkRat 1 (10 ^ (-e).toNat)

/-- An optional exponent part: `e` or `E`, an optional sign, then digits; if no
digit follows, strtof backtracks and the exponent is not consumed. -/
def applyExp (q : ℚ) : List Char → ℚ
  | 'e' :: '-' :: cs =>
      match takeDigits cs with
      | ([], _) => q
      | (ds, _) => qMul q (pow10 (-(digitsToNat ds : Int)))
  | 'e' :: '+' :: cs =>
      match takeDigits cs with
      | ([], _) => q
      | (ds, _) => qMul q (pow10 (digitsToNat ds : Int))
  | 'e' :: cs =>
      match takeDigits cs with
      | ([], _) => q
      | (ds, _) => qMul q (pow10 (digitsToNat ds : Int))
  | 'E' :: '-' :: cs =>
      match takeDigits cs with
      | ([], _) => q
      | (ds, _) => qMul q (pow10 (-(digitsToNat ds : Int)))
  | 'E' :: '+' :: cs =>
      match takeDigits cs with
      | ([], _) => q
      | (ds, _) => qMul q (pow10 (digitsToNat ds : Int))
  | 'E' :: cs =>
      match takeDigits cs with
      | ([], _) => q
      | (ds, _) => qMul q (pow10 (digitsToNat ds : Int))
  | _ => q

/-- The value of a fraction-digit run, e.g. "25" ↦ 25/100. -/
def fracVal (ds : List Char) : ℚ :=
  mkRat (digitsToNat ds) (10 ^ ds.length)

/-- The unsigned numeric part: digits, an optional point with more digits, an
optional exponent; a bare point with no digit anywhere fails. -/
def parseMagNum (cs : List Char) : Option PreF :=
  match takeDigits cs with
  | ([], rest) =>
    match rest with
    | '.' :: r2 =>
      match takeDigits r2 with
      | ([], _) => none
      | (fds, r3) => some (.pnum (applyExp (fracVal fds) r3))
    | _ => none
  | (ids, rest) =>
    match rest with
    | '.' :: r2 =>
      match takeDigits r2 with
      | (fds, r3) => some (.pnum (applyExp (qAdd (mkRat (digitsToNat ids) 1) (fracVal fds)) r3))
    | _ => some (.pnum (applyExp (mkRat (digitsToNat ids) 1) rest))

/-- The unsigned part for %f: "inf" and "nan" words (strtof), else a number. -/
def parseMagScanf (cs : List Char) : Option PreF :=
  match cs with
  | 'i' :: 'n' :: 'f' :: _ => some (.pinf false)
  | 'n' :: 'a' :: 'n' :: _ => some (.pnan)
  | _ => parseMagNum cs

/-- Sign handling shared by the two float readers. -/
def signedPreF (mag : List Char → Option PreF) (cs : List Char) : Option PreF :=
  match cs with
  | '-' :: rest => (mag rest).map negPreF
  | '+' :: rest => mag rest
  | _ => mag cs

/-- fscanf("%f"): skip whitespace, optional sign, then the strtof payload. -/
def scanfFloat (s : String) : Option Flt :=
  (signedPreF parseMagScanf (skipWs s.data)).map preToFlt

theorem scanfFloat_repr (s : String) (f : Flt) (h : scanfFloat s = some f) :
    FltRepr f := by
  unfold scanfFloat at h
  rw [Option.map_eq_some'] at h
  obtain ⟨p, -, rfl⟩ := h
  exact preToFlt_repr p

/-- istream `fs >> (float&)` (the num_get grammar): like %f but the "inf" and
"nan" words are not in the accepted character set. -/
def istreamFloat (s : String) : Option Flt :=
  (signedPreF parseMagNum (skipWs s.data)).map preToFlt

/-- fscanf("%s") / istream string extraction: the first whitespace-delimited
token, failing when only whitespace (EOF) remains. -/
def firstToken (s : String) : Option String :=
  match skipWs s.data with
  | [] => none
  | c :: cs =>
    let rec go : List Char → List Char
      | [] => []
      | d :: ds => if isWs d then [] else d :: go ds
    some (String.mk (c :: go cs))

/-- fscanf("%d") from a file's content: skip whitespace, optional sign, digits.
(The int-overflow corner is not exercised by anything proved here.) -/
def fscanfInt (s : String) : Option Int :=
  let cs := skipWs s.data
  match cs with
  | '-' :: rest =>
    match takeDigits rest with
    | ([], _) => none
    | (ds, _) => some (-(digitsToNat ds : Int))
  | '+' :: rest =>
    match takeDigits rest with
    | ([], _) => none
    | (ds, _) => some (digitsToNat ds : Int)
  | _ =>
    match takeDigits cs with
    | ([], _) => none
    | (ds, _) => some (digitsToNat ds : Int)

/-- istream `fs >> (int&)` on a freshly opened good stream: extraction failure
stores 0 in the target (C++11). -/
def istreamIntVal (s : String) : Int :=
  (fscanfInt s).getD 0

/-! ## A model of std::ifstream state (C++11 semantics)

Only what getTemperaturesHelper exercises is modelled: construction, `open`,
`close`, `fail`, and one extraction per freshly opened file.  The load-bearing
fact is that `basic_filebuf::open` on an already-open stream returns a null
pointer, so `basic_ifstream::open` then sets failbit; on success `open` clears
the stream state. -/

structure IfStream where
  buf : Option String
  failbit : Bool
deriving DecidableEq

/-- std::ifstream fs(name): open on construction; failbit iff the open failed. -/
def ifstreamCtor (file : Option String) : IfStream :=
  match file with
  | some c => ⟨some c, false⟩
  | none => ⟨none, true⟩

/-- fs.open(name): fails (failbit) if a file is already associated; otherwise
opens the file, clearing the stream state on success. -/
def IfStream.openF (s : IfStream) (file : Option String) : IfStream :=
  match s.buf with
  | some _ => { s with failbit := true }
  | none =>
    match file with
    | some c => ⟨some c, false⟩
    | none => { s with failbit := true }

/-- fs.close(): dissociates the file; the error state is not cleared. -/
def IfStream.closeF (s : IfStream) : IfStream := { s with buf := none }

/-- fs >> (float& target), C++11: a set failbit makes extraction a no-op (the
target keeps its old value); otherwise a parse failure stores 0 and sets
failbit. -/
def IfStream.readFloat (s : IfStream) (old : Flt) : IfStream × Flt :=
  if s.failbit then (s, old)
  else
    match s.buf with
    | none => ({ s with failbit := true }, old)
    | some c =>
      match istreamFloat c with
      | some f => (s, f)
      | none => ({ s with failbit := true }, .val 0)

/-- fs >> (std::string& target): on failure the freshly default-constructed
target stays empty. -/
def IfStream.readString (s : IfStream) : IfStream × String :=
  if s.failbit then (s, "")
  else
    match s.buf with
    | none => ({ s with failbit := true }, "")
    | some c =>
      match firstToken c with
      | some t => (s, t)
      | none => ({ s with failbit := true }, "")

/-! ## V2.0 Thermal.cpp: temperature queries -/

/-- The shared fields of every V1.0 temperature sample either implementation
builds (Thermal.cpp lines 328-334, V1.1 lines 97-103). -/
def mkTemperature_1_0 (name : String) (temp : Flt) : Temperature_1_0 :=
  { type := .CPU
    name := name
    currentValue := temp.div1000
    throttlingThreshold := finalizeTemperature kThrottlingThreshold
    shutdownThreshold := finalizeTemperature kShutdownThreshold
    vrThrottlingThreshold := finalizeTemperature UNKNOWN_TEMPERATURE }

/-- One iteration of the Thermal::getTemperaturesHelper loop.  The source
constructs `std::ifstream fs(tempFileName)` and then calls `fs.open` on the
same stream again; `temp` is declared once before the loop but, on every path
that reaches the push, it is freshly assigned (extraction on a good stream
stores the parsed value or 0), so it is modelled per-entry. -/
def helperStep (acc : List Temperature_1_0) (e : ZoneEntry) : List Temperature_1_0 :=
  if strPrefixOf kThermalZone e.name then
    let fs0 := ifstreamCtor e.tempFile
    let fs1 := fs0.openF e.tempFile
    if fs1.failbit then acc
    else
      let (fs2, temp) := fs1.readFloat (.val 0)
      let fs3 := fs2.closeF
      let fs4 := fs3.openF e.typeFile
      if fs4.failbit then acc
      else
        let (_, name) := fs4.readString
        acc ++ [mkTemperature_1_0 name temp]
  else acc

def getTemperaturesHelper (dir : List ZoneEntry) : List Temperature_1_0 :=
  dir.foldl helperStep []

/-- Thermal::getTemperatures (V2.0 file, lines 63-77). -/
def v20GetTemperatures (dir : List ZoneEntry) : ThermalStatus × List Temperature_1_0 :=
  let ts := getTemperaturesHelper dir
  if ts.length = 0 then ({ code := .FAILURE, debugMessage := strerror (-ENOENT) }, ts)
  else ({ code := .SUCCESS, debugMessage := "" }, ts)

/-- The conversion loop of Thermal::getCurrentTemperatures (lines 159-169):
filter by type when requested, copy the fields, and set throttlingStatus to
NONE unconditionally. -/
def convertTemperatures (filterType : Bool) (ty : TemperatureType)
    (ts : List Temperature_1_0) : List Temperature_2_0 :=
  (ts.filter (fun t => !filterType || decide (ty = t.type))).map
    (fun t => { type := t.type, name := t.name, value := t.currentValue,
                throttlingStatus := ThrottlingSeverity.NONE })

/-- Thermal::getCurrentTemperatures (V2.0, lines 148-179). -/
def v20GetCurrentTemperatures (dir : List ZoneEntry) (filterType : Bool)
    (ty : TemperatureType) : ThermalStatus × List Temperature_2_0 :=
  let t10 := getTemperaturesHelper dir
  let stAndTs : ThermalStatus × List Temperature_2_0 :=
    if t10.length = 0 then ({ code := .FAILURE, debugMessage := strerror (-ENOENT) }, [])
    else ({ code := .SUCCESS, debugMessage := "" }, convertTemperatures filterType ty t10)
  if stAndTs.2.length = 0 then
    ({ code := .FAILURE, debugMessage := strerror (-ENOENT) }, stAndTs.2)
  else stAndTs

/-- The hot threshold band reported by getTemperatureThresholds (lines
209-210): slot 3 holds 100 and slot 6 holds 120, all others NaN. -/
def hotThrottlingSeq : List Flt :=
  [.nan, .nan, .nan, kThrottlingThreshold, .nan, .nan, kShutdownThreshold]

/-- Thermal::getTemperatureThresholds (V2.0, lines 181-220): the per-entry type
read uses a single `fs.open` on a default-constructed stream, so it works; an
extraction failure is unchecked and pushes an empty name. -/
def v20GetTemperatureThresholds (dir : List ZoneEntry) (filterType : Bool)
    (ty : TemperatureType) : ThermalStatus × List TemperatureThreshold :=
  if filterType && !(decide (ty = TemperatureType.CPU)) then
    ({ code := .FAILURE, debugMessage := "Wrong filter type" }, [])
  else
    ({ code := .SUCCESS, debugMessage := "" },
      dir.foldl (fun acc e =>
        if strPrefixOf kThermalZone e.name then
          match e.typeFile with
          | none => acc
          | some yc =>
            acc ++ [{ type := .CPU, name := (firstToken yc).getD "",
                      hotThrottlingThresholds := hotThrottlingSeq,
                      coldThrottlingThresholds := [.nan, .nan, .nan, .nan, .nan, .nan, .nan],
                      vrThrottlingThreshold := .nan }]
        else acc) [])

/-- Thermal::getCoolingDevices (V2.0, lines 138-145). -/
def v20GetCoolingDevices : ThermalStatus × List CoolingDevice :=
  ({ code := .FAILURE, debugMessage := "No cooling devices" }, [])

/-- Thermal::getCurrentCoolingDevices (V2.0, lines 222-231). -/
def v20GetCurrentCoolingDevices : ThermalStatus × List CoolingDevice :=
  ({ code := .FAILURE, debugMessage := "No cooling devices" }, [])

/-! ## V1.1 implementation file: temperature queries (FILE*-based) -/

/-- One readdir entry of the V1.1 Thermal::getTemperatures loop (lines 77-107).
Outer `none` is undefined behaviour: after the temp read succeeds, the type
file is fopen'ed and passed to fscanf with no null check (missing type file
⇒ fscanf(NULL, ...)), and fscanf("%s") writes into char[15] with no width
(a type token of 15 or more characters overflows the buffer).
`some none` = entry silently skipped, `some (some t)` = one sample. -/
def v11ProcessEntry (e : ZoneEntry) : Option (Option Temperature_1_0) :=
  if strPrefixOf kThermalZone e.name then
    match e.tempFile with
    | none => some none
    | some tc =>
      match scanfFloat tc with
      | none => some none
      | some temp =>
        match e.typeFile with
        | none => none
        | some yc =>
          match firstToken yc with
          | none => some none
          | some nm =>
            if 15 ≤ nm.length then none
            else some (some (mkTemperature_1_0 nm temp))
  else some none

def v11Collect : List ZoneEntry → Option (List Temperature_1_0)
  | [] => some []
  | e :: es =>
    match v11ProcessEntry e with
    | none => none
    | some none => v11Collect es
    | some (some t) => (v11Collect es).map (fun ts => t :: ts)

/-- V1.1 Thermal::getTemperatures (lines 56-117).  `dir = none` means the
thermal directory cannot be opened; the overall `none` is undefined behaviour
inherited from `v11ProcessEntry`. -/
def v11GetTemperatures (dir : Option (List ZoneEntry)) :
    Option (ThermalStatus × List Temperature_1_0) :=
  match dir with
  | none => some ({ code := .FAILURE, debugMessage := "" }, [])
  | some es =>
    match v11Collect es with
    | none => none
    | some ts =>
      if ts.length = 0 then
        some ({ code := .FAILURE, debugMessage := strerror (-ENOENT) }, ts)
      else some ({ code := .SUCCESS, debugMessage := "" }, ts)

/-- V1.1 Thermal::getCoolingDevices (lines 202-209): SUCCESS with an empty
list, unlike the V2.0 implementation. -/
def v11GetCoolingDevices : ThermalStatus × List CoolingDevice :=
  ({ code := .SUCCESS, debugMessage := "" }, [])

/-! ## CPU usage: shared tick arithmetic -/

def u64Mod : Nat := 2 ^ 64

/-- active = user + nice + system, in uint64_t. -/
def cpuActiveTicks (user nice system : Nat) : Nat :=
  (user + nice + system) % u64Mod

/-- total = active + idle, in uint64_t. -/
def cpuTotalTicks (user nice system idle : Nat) : Nat :=
  (cpuActiveTicks user nice system + idle) % u64Mod

/-! ## V2.0 Thermal.cpp: getCpuUsages

The line filter is std::regex_search with
"cpu([0-9]+)( [0-9]+)( [0-9]+)( [0-9]+)( [0-9]+)(.*)": an unanchored search
for "cpu", a digit run, then four single-space-separated digit runs.  Maximal
digit munching is exact here: every digit group is followed by a mandatory
space or by (.*), so backtracking can never help. -/

/-- An anchored match of the pattern at the head of the list, returning the
five captured digit runs. -/
def matchSpaceNum (cs : List Char) : Option (List Char × List Char) :=
  match cs with
  | ' ' :: rest =>
    match takeDigits rest with
    | ([], _) => none
    | (ds, r) => some (ds, r)
  | _ => none

def matchCpuAt (cs : List Char) :
    Option (List Char × List Char × List Char × List Char × List Char) :=
  match cs with
  | 'c' :: 'p' :: 'u' :: rest =>
    match takeDigits rest with
    | ([], _) => none
    | (ds, r1) =>
      match matchSpaceNum r1 with
      | none => none
      | some (u, r2) =>
        match matchSpaceNum r2 with
        | none => none
        | some (n, r3) =>
          match matchSpaceNum r3 with
          | none => none
          | some (s, r4) =>
            match matchSpaceNum r4 with
            | none => none
            | some (i, _) => some (ds, u, n, s, i)
  | _ => none

/-- Leftmost regex_search over the whole line. -/
def regexSearch : List Char → Option (List Char × List Char × List Char × List Char × List Char)
  | [] => none
  | c :: cs =>
    match matchCpuAt (c :: cs) with
    | some r => some r
    | none => regexSearch cs

/-- std::stoi on a captured digit run: throws out_of_range beyond INT_MAX. -/
def stoiCapture (ds : List Char) : Option Nat :=
  if digitsToNat ds < 2 ^ 31 then some (digitsToNat ds) else none

/-- std::stoull on a captured digit run: throws out_of_range beyond 2^64-1. -/
def stoullCapture (ds : List Char) : Option Nat :=
  if digitsToNat ds < u64Mod then some (digitsToNat ds) else none

/-- One line of the V2.0 getCpuUsages loop (lines 101-130).  `none` is an
uncaught stoi/stoull exception; `some none` skips the line; `some (some u)`
pushes one sample.  The per-core online file: an open failure leaves
isOnline = (cpuNum == 0) (the following extraction on the failed stream is a
no-op); on a good stream an extraction failure stores 0 (C++11). -/
def v20LineStep (online : Nat → Option String) (l : String) : Option (Option CpuUsage) :=
  match regexSearch l.data with
  | none => some none
  | some (cds, uds, nds, sds, ids) =>
    match stoiCapture cds, stoullCapture uds, stoullCapture nds,
          stoullCapture sds, stoullCapture ids with
    | some cpu, some u, some n, some s, some i =>
      let isOnline : Int :=
        match online cpu with
        | none => if cpu = 0 then 1 else 0
        | some c => istreamIntVal c
      some (some { name := "CPU" ++ String.mk cds,
                   active := cpuActiveTicks u n s,
                   total := cpuTotalTicks u n s i,
                   isOnline := isOnline != 0 })
    | _, _, _, _, _ => none

def v20ProcessLines (online : Nat → Option String) :
    List String → List CpuUsage → Option (List CpuUsage)
  | [], acc => some acc
  | l :: ls, acc =>
    match v20LineStep online l with
    | none => none
    | some none => v20ProcessLines online ls acc
    | some (some u) => v20ProcessLines online ls (acc ++ [u])

/-- Thermal::getCpuUsages (V2.0, lines 79-136).  `stat = none` models a
/proc/stat open failure: FAILURE is returned with no debugMessage set.  In
every completed loop the status stays SUCCESS. -/
def v20GetCpuUsages (stat : Option (List String)) (online : Nat → Option String) :
    Option (ThermalStatus × List CpuUsage) :=
  match stat with
  | none => some ({ code := .FAILURE, debugMessage := "" }, [])
  | some lines =>
    (v20ProcessLines online lines []).map
      (fun us => ({ code := .SUCCESS, debugMessage := "" }, us))

/-! ## V1.1 implementation file: getCpuUsages -/

/-- snprintf(cpu_name, 5, "CPU%d", n): truncated to four characters. -/
def v11CpuName (n : Nat) : String :=
  ("CPU" ++ Nat.repr n).take 4

def v11MkUsage (cpu user nice system idle : Nat) (online : Bool) : CpuUsage :=
  { name := v11CpuName cpu,
    active := cpuActiveTicks user nice system,
    total := cpuTotalTicks user nice system idle,
    isOnline := online }

/-- One %llu conversion of sscanf: a literal space plus %llu skip whitespace,
then an optional sign and digits (strtoull wraps a negated value modulo 2^64).
Outer `none` = numeric overflow (undefined behaviour in scanf); `some none` =
matching failure, ending the count short. -/
def scanfU64 (cs : List Char) : Option (Option (Nat × List Char)) :=
  let cs1 := skipWs cs
  match cs1 with
  | '-' :: rest =>
    match takeDigits rest with
    | ([], _) => some none
    | (ds, r) =>
      if digitsToNat ds < u64Mod then
        some (some ((u64Mod - digitsToNat ds) % u64Mod, r))
      else none
  | '+' :: rest =>
    match takeDigits rest with
    | ([], _) => some none
    | (ds, r) =>
      if digitsToNat ds < u64Mod then some (some (digitsToNat ds, r)) else none
  | _ =>
    match takeDigits cs1 with
    | ([], _) => some none
    | (ds, r) =>
      if digitsToNat ds < u64Mod then some (some (digitsToNat ds, r)) else none

/-- sscanf(line, "cpu%d %llu %llu %llu %llu", ...) of the V1.1 file (line 149).
`.inl k` = only k conversions matched; `.inr` = all five.  The caller only
reaches this with a digit right after "cpu", so the %d sign cases cannot
arise; a cpu number beyond int range is undefined behaviour (`none`). -/
def v11Sscanf (cs : List Char) : Option (Nat ⊕ (Nat × Nat × Nat × Nat × Nat)) :=
  match cs with
  | 'c' :: 'p' :: 'u' :: rest =>
    match takeDigits (skipWs rest) with
    | ([], _) => some (.inl 0)
    | (ds, r1) =>
      if 2 ^ 31 ≤ digitsToNat ds then none
      else
        match scanfU64 r1 with
        | none => none
        | some none => some (.inl 1)
        | some (some (u, r2)) =>
          match scanfU64 r2 with
          | none => none
          | some none => some (.inl 2)
          | some (some (n, r3)) =>
            match scanfU64 r3 with
            | none => none
            | some none => some (.inl 3)
            | some (some (s, r4)) =>
              match scanfU64 r4 with
              | none => none
              | some none => some (.inl 4)
              | some (some (i, _)) => some (.inr (digitsToNat ds, u, n, s, i))
  | _ => some (.inl 0)

/-- Outcome of one getline iteration of the V1.1 getCpuUsages loop. -/
inductive V11Line where
  | crash : V11Line
  | skip : V11Line
  | abort : V11Line
  | sample (u : CpuUsage) : V11Line
deriving DecidableEq

/-- One line of the V1.1 loop (lines 141-196).  A line shorter than four
characters, without the "cpu" prefix, or without a digit fourth character is
skipped.  A matching prefix whose five-conversion sscanf comes up short aborts
the whole call (FAILURE, strerror(-EIO)); so does an online file that opens
but fails to parse.  A missing online file defaults online to (cpu_num == 0). -/
def v11LineStep (online : Nat → Option String) (l : String) : V11Line :=
  match l.data with
  | 'c' :: 'p' :: 'u' :: d :: rest =>
    if d.isDigit then
      match v11Sscanf ('c' :: 'p' :: 'u' :: d :: rest) with
      | none => .crash
      | some (.inl _) => .abort
      | some (.inr (cpu, u, n, s, i)) =>
        match online cpu with
        | none => .sample (v11MkUsage cpu u n s i (cpu == 0))
        | some c =>
          match fscanfInt c with
          | none => .abort
          | some v => .sample (v11MkUsage cpu u n s i (v != 0))
    else .skip
  | _ => .skip

def v11ProcessLines (online : Nat → Option String) :
    List String → List CpuUsage → Option (ThermalStatus × List CpuUsage)
  | [], acc => some ({ code := .SUCCESS, debugMessage := "" }, acc)
  | l :: ls, acc =>
    match v11LineStep online l with
    | .crash => none
    | .skip => v11ProcessLines online ls acc
    | .abort => some ({ code := .FAILURE, debugMessage := strerror (-eioCode) }, acc)
    | .sample u => v11ProcessLines online ls (acc ++ [u])

/-- V1.1 Thermal::getCpuUsages (lines 119-200).  On a /proc/stat open failure
the function returns early with the status still initialized to SUCCESS — it
is never set to FAILURE on that path. -/
def v11GetCpuUsages (stat : Option (List String)) (online : Nat → Option String) :
    Option (ThermalStatus × List CpuUsage) :=
  match stat with
  | none => some ({ code := .SUCCESS, debugMessage := "" }, [])
  | some lines => v11ProcessLines online lines []

/-! ## V2.0 callback registry -/

/-- Thermal::registerThermalChangedCallback (lines 233-260).  `none` models a
null callback pointer; interfacesEqual is identity comparison, ignoring the
filter settings; a new registration is emplaced at the back. -/
def registerThermalChangedCallback (cbs : List CallbackSetting)
    (callback : Option Nat) (filterType : Bool) (ty : TemperatureType) :
    ThermalStatus × List CallbackSetting :=
  match callback with
  | none => ({ code := .FAILURE, debugMessage := "Invalid nullptr callback" }, cbs)
  | some h =>
    if cbs.any (fun c => c.callback == h) then
      ({ code := .FAILURE, debugMessage := "Same callback interface registered already" }, cbs)
    else
      ({ code := .SUCCESS, debugMessage := "" },
        cbs ++ [{ callback := h, is_filter_type := filterType, type := ty }])

/-- Thermal::unregisterThermalChangedCallback (lines 262-297): erase-remove of
every matching registration, FAILURE if none matched. -/
def unregisterThermalChangedCallback (cbs : List CallbackSetting)
    (callback : Option Nat) : ThermalStatus × List CallbackSetting :=
  match callback with
  | none => ({ code := .FAILURE, debugMessage := "Invalid nullptr callback" }, cbs)
  | some h =>
    let removed := cbs.any (fun c => c.callback == h)
    let rest := cbs.filter (fun c => !(c.callback == h))
    if removed then ({ code := .SUCCESS, debugMessage := "" }, rest)
    else ({ code := .FAILURE, debugMessage := "The callback was not registered before" }, rest)

/-! ## V1.1 registerThermalCallback -/

/-- The constant sample sent on V1.1 registration (lines 220-227). -/
def v11NotifyTemperature : Temperature_1_0 :=
  { type := .CPU
    name := "thermal"
    currentValue := finalizeTemperature UNKNOWN_TEMPERATURE
    throttlingThreshold := finalizeTemperature kThrottlingThreshold
    shutdownThreshold := finalizeTemperature kShutdownThreshold
    vrThrottlingThreshold := finalizeTemperature UNKNOWN_TEMPERATURE }

/-- V1.1 Thermal::registerThermalCallback (lines 211-231).  The store is the
single static field sThermalCb (at most one listener by construction); a null
callback is ignored, a non-null one overwrites the slot unconditionally and a
notifyThrottling(false, ...) is sent.  The second component is the
notification sent, if any. -/
def v11RegisterThermalCallback (sThermalCb : Option Nat) (callback : Option Nat) :
    Option Nat × Option (Bool × Temperature_1_0) :=
  match callback with
  | none => (sThermalCb, none)
  | some h => (some h, some (false, v11NotifyTemperature))

/-! ## The spec's ThresholdEvaluator -/

/-- Modelled from the spec: "determine throttling_severity by scanning the
hot-direction threshold sequence from most severe (SHUTDOWN) to least (NONE)
and selecting the first boundary the current value meets or exceeds; if
current_value is not-a-number, severity is undefined/NONE".  The source
contains no such evaluator — this definition exists only to compare the spec's
description with what the code actually reports. -/
def specScanSeverity (hot : List Flt) (v : Flt) : ThrottlingSeverity :=
  match v with
  | .nan => .NONE
  | _ =>
    if fltGe v (hot.getD 6 .nan) then .SHUTDOWN
    else if fltGe v (hot.getD 5 .nan) then .EMERGENCY
    else if fltGe v (hot.getD 4 .nan) then .CRITICAL
    else if fltGe v (hot.getD 3 .nan) then .SEVERE
    else if fltGe v (hot.getD 2 .nan) then .MODERATE
    else if fltGe v (hot.getD 1 .nan) then .LIGHT
    else .NONE

/-- No field of a sample compares float-equal to the raw unknown sentinel. -/
def NoRawSentinel (t : Temperature_1_0) : Prop :=
  fltEq t.currentValue UNKNOWN_TEMPERATURE = false ∧
  fltEq t.throttlingThreshold UNKNOWN_TEMPERATURE = false ∧
  fltEq t.shutdownThreshold UNKNOWN_TEMPERATURE = false ∧
  fltEq t.vrThrottlingThreshold UNKNOWN_TEMPERATURE = false

instance (t : Temperature_1_0) : Decidable (NoRawSentinel t) := by
  unfold NoRawSentinel
  infer_instance

/-! ## Shared lemmas -/

/-- Every iteration of the getTemperaturesHelper loop leaves the accumulator
unchanged: the second `fs.open` on the same stream always sets failbit (either
the stream is already open, or the first open failed and the retry fails
again), so the `continue` is always taken. -/
theorem helperStep_eq (acc : List Temperature_1_0) (e : ZoneEntry) :
    helperStep acc e = acc := by
  unfold helperStep
  cases hf : e.tempFile <;> simp [ifstreamCtor, IfStream.openF]

theorem getTemperaturesHelper_nil (dir : List ZoneEntry) :
    getTemperaturesHelper dir = [] := by
  unfold getTemperaturesHelper
  suffices h : ∀ (l : List ZoneEntry) (acc : List Temperature_1_0),
      l.foldl helperStep acc = acc by exact h dir []
  intro l
  induction l with
  | nil => intro acc; rfl
  | cons e es ih => intro acc; rw [List.foldl_cons, helperStep_eq]; exact ih acc

/-- A representable temperature divided by 1000 can never equal -FLT_MAX: its
magnitude is at most FLT_MAX/1000. -/
theorem div1000_ne_sentinel (f : Flt) (h : FltRepr f) :
    fltEq f.div1000 UNKNOWN_TEMPERATURE = false := by
  cases f with
  | nan => rfl
  | inf b => rfl
  | val q =>
    simp only [Flt.div1000, fltEq, UNKNOWN_TEMPERATURE, decide_eq_false_iff_not]
    intro hq
    rw [qDiv1000_eq] at hq
    have hq' : q = -fltMax * 1000 :=
      (div_eq_iff (by norm_num : (1000 : ℚ) ≠ 0)).mp hq
    have habs : |q| ≤ fltMax := h
    rw [hq', abs_of_nonpos (by nlinarith [fltMax_pos])] at habs
    nlinarith [fltMax_pos]

theorem mkTemperature_no_sentinel (nm : String) (f : Flt) (hf : FltRepr f) :
    NoRawSentinel (mkTemperature_1_0 nm f) :=
  ⟨div1000_ne_sentinel f hf, rfl, rfl, rfl⟩

theorem v11ProcessEntry_no_sentinel (e : ZoneEntry) (t : Temperature_1_0)
    (h : v11ProcessEntry e = some (some t)) : NoRawSentinel t := by
  unfold v11ProcessEntry at h
  by_cases hp : strPrefixOf kThermalZone e.name = true
  · simp only [hp, if_true] at h
    cases htc : e.tempFile with
    | none => simp only [htc] at h; simp at h
    | some tc =>
      simp only [htc] at h
      cases hsf : scanfFloat tc with
      | none => simp only [hsf] at h; simp at h
      | some temp =>
        simp only [hsf] at h
        cases hyc : e.typeFile with
        | none => simp only [hyc] at h; simp at h
        | some yc =>
          simp only [hyc] at h
          cases hft : firstToken yc with
          | none => simp only [hft] at h; simp at h
          | some nm =>
            simp only [hft] at h
            by_cases hlen : 15 ≤ nm.length
            · rw [if_pos hlen] at h; simp at h
            · rw [if_neg hlen] at h
              have ht : mkTemperature_1_0 nm temp = t := by
                injection h with h1
                injection h1
              rw [← ht]
              exact mkTemperature_no_sentinel nm temp (scanfFloat_repr tc temp hsf)
  · simp only [hp, if_false] at h
    simp at h

theorem v11Collect_no_sentinel (es : List ZoneEntry) :
    ∀ ts, v11Collect es = some ts → ∀ t ∈ ts, NoRawSentinel t := by
  induction es with
  | nil =>
    intro ts h t ht
    simp only [v11Collect] at h
    injection h with h
    subst h
    cases ht
  | cons e es ih =>
    intro ts h t ht
    unfold v11Collect at h
    cases hpe : v11ProcessEntry e with
    | none =>
      simp only [hpe] at h
      exact Option.noConfusion h
    | some o =>
      cases o with
      | none =>
        simp only [hpe] at h
        exact ih ts h t ht
      | some t0 =>
        simp only [hpe] at h
        rw [Option.map_eq_some'] at h
        obtain ⟨ts', hts', rfl⟩ := h
        cases ht with
        | head => exact v11ProcessEntry_no_sentinel e _ hpe
        | tail _ hmem => exact ih ts' hts' t hmem

/-- Removing one non-matching line does not change what the V2.0 cpu-usage
loop produces. -/
theorem v20ProcessLines_skip (online : Nat → Option String) (pre post : List String)
    (bad : String) (acc : List CpuUsage) (hbad : regexSearch bad.data = none) :
    v20ProcessLines online (pre ++ bad :: post) acc =
      v20ProcessLines online (pre ++ post) acc := by
  have hstep : v20LineStep online bad = some none := by
    unfold v20LineStep; rw [hbad]
  induction pre generalizing acc with
  | nil =>
    simp only [List.nil_append]
    conv_lhs => rw [v20ProcessLines]
    rw [hstep]
  | cons l pre ih =>
    simp only [List.cons_append]
    rw [v20ProcessLines, v20ProcessLines]
    cases hl : v20LineStep online l with
    | none => rfl
    | some o =>
      cases o with
      | none => exact ih _
      | some u => exact ih _

/-! ## Claim theorems -/

/-- C1 counterexample: the spec's most-severe-first scan classifies a current
value of 120 as SHUTDOWN (and 100 as the 100-boundary severity), but the
conversion loop of getCurrentTemperatures reports NONE for that very sample. -/
theorem currentTemperatures_severity_not_scanned_cex :
    convertTemperatures false .CPU [mkTemperature_1_0 "cpu" (.val 120000)] =
      [{ type := .CPU, name := "cpu", value := .val 120,
         throttlingStatus := .NONE }] ∧
    specScanSeverity hotThrottlingSeq (.val 120) = .SHUTDOWN ∧
    specScanSeverity hotThrottlingSeq (.val 100) = .SEVERE ∧
    specScanSeverity hotThrottlingSeq (.val (mkRat 999 10)) = .NONE ∧
    ThrottlingSeverity.NONE ≠ .SHUTDOWN :=
  ⟨by decide, by decide, by decide, by decide, by decide⟩

/-- C1 (amended): every sample produced by the getCurrentTemperatures
conversion loop carries throttling severity NONE, whatever its value; the hot
threshold sequence reported by getTemperatureThresholds is never consulted. -/
theorem currentTemperatures_severity_always_none (filterType : Bool)
    (ty : TemperatureType) (ts : List Temperature_1_0) (t : Temperature_2_0)
    (h : t ∈ convertTemperatures filterType ty ts) :
    t.throttlingStatus = .NONE := by
  unfold convertTemperatures at h
  rw [List.mem_map] at h
  obtain ⟨a, -, rfl⟩ := h
  rfl

/-- C1 witness: the theorem applied to the 120-degree sample. -/
theorem currentTemperatures_severity_always_none_w :
    ({ type := .CPU, name := "cpu", value := .val 120,
       throttlingStatus := .NONE } : Temperature_2_0).throttlingStatus = .NONE :=
  currentTemperatures_severity_always_none false .CPU
    [mkTemperature_1_0 "cpu" (.val 120000)] _ (by decide)

/-- C2: no sample field returned by either generation's get_temperatures ever
compares equal to the raw UNKNOWN_TEMPERATURE sentinel: the three thresholds
pass through finalizeTemperature and the current value is a representable
reading divided by 1000, whose magnitude stays strictly below FLT_MAX. -/
theorem getTemperatures_no_raw_sentinel :
    (∀ dir st ts, v11GetTemperatures dir = some (st, ts) → ∀ t ∈ ts, NoRawSentinel t) ∧
    (∀ dir, ((v20GetTemperatures dir).2.all fun t => decide (NoRawSentinel t)) = true) := by
  constructor
  · intro dir st ts h t ht
    cases dir with
    | none =>
      simp only [v11GetTemperatures] at h
      injection h with h
      injection h with h1 h2
      subst h2
      cases ht
    | some es =>
      simp only [v11GetTemperatures] at h
      cases hc : v11Collect es with
      | none =>
        simp only [hc] at h
        exact Option.noConfusion h
      | some ts' =>
        simp only [hc] at h
        have hts : ts = ts' := by
          split at h <;>
            (injection h with h; injection h with h1 h2; exact h2.symm)
        subst hts
        exact v11Collect_no_sentinel es ts hc t ht
  · intro dir
    simp [v20GetTemperatures, getTemperaturesHelper_nil]

/-- C2 witness: the V1.1 conjunct applied to a one-entry directory whose temp
file reads 45000 millidegrees. -/
theorem getTemperatures_no_raw_sentinel_w :
    NoRawSentinel { type := .CPU, name := "cpu", currentValue := .val 45,
                    throttlingThreshold := .val 100, shutdownThreshold := .val 120,
                    vrThrottlingThreshold := .nan } :=
  getTemperatures_no_raw_sentinel.1
    (some [⟨"thermal_zone0", some "45000", some "cpu"⟩])
    { code := .SUCCESS, debugMessage := "" }
    [{ type := .CPU, name := "cpu", currentValue := .val 45,
       throttlingThreshold := .val 100, shutdownThreshold := .val 120,
       vrThrottlingThreshold := .nan }]
    (by decide) _ (by decide)

/-- C3: with a present-but-empty (or all-malformed) thermal directory both
implementations do return FAILURE with an empty sample list, but the
descriptive message is strerror(-ENOENT) = "Unknown error -2" — the errno is
negated before being handed to strerror — not "No such file or directory". -/
theorem getTemperatures_zero_entries_message :
    v11GetTemperatures (some []) =
      some ({ code := .FAILURE, debugMessage := "Unknown error -2" }, []) ∧
    v11GetTemperatures (some [⟨"thermal_zone0", none, none⟩]) =
      some ({ code := .FAILURE, debugMessage := "Unknown error -2" }, []) ∧
    v20GetTemperatures [] =
      ({ code := .FAILURE, debugMessage := "Unknown error -2" }, []) ∧
    strerror (-ENOENT) = "Unknown error -2" ∧
    strerror ENOENT = "No such file or directory" :=
  ⟨by decide, by decide, by decide, by decide, by decide⟩

/-- C4 counterexample: the V1.1 getCoolingDevices returns SUCCESS (with an
empty list), so "every call returns Failure / never Success" is false. -/
theorem v11CoolingDevices_success_cex :
    v11GetCoolingDevices =
      ({ code := .SUCCESS, debugMessage := "" }, ([] : List CoolingDevice)) ∧
    ThermalStatusCode.SUCCESS ≠ .FAILURE :=
  ⟨rfl, by decide⟩

/-- C4 (amended): the two V2.0 cooling-device queries always return Failure
with "No cooling devices" and an empty sequence; the V1.1 getCoolingDevices
instead always returns Success with an empty sequence. -/
theorem coolingDevices_status :
    v20GetCoolingDevices =
      ({ code := .FAILURE, debugMessage := "No cooling devices" }, []) ∧
    v20GetCurrentCoolingDevices =
      ({ code := .FAILURE, debugMessage := "No cooling devices" }, []) ∧
    v11GetCoolingDevices = ({ code := .SUCCESS, debugMessage := "" }, []) :=
  ⟨rfl, rfl, rfl⟩

/-- C5 counterexample: on a counters-file open failure the V1.1 implementation
returns SUCCESS (the status is never set to FAILURE on that path), and the
V2.0 implementation returns FAILURE with an empty debugMessage rather than an
errno-style description. -/
theorem cpuUsages_open_failure_cex :
    v11GetCpuUsages none (fun _ => none) =
      some ({ code := .SUCCESS, debugMessage := "" }, []) ∧
    v20GetCpuUsages none (fun _ => none) =
      some ({ code := .FAILURE, debugMessage := "" }, []) :=
  ⟨rfl, rfl⟩

/-- C5 (amended): in the V2.0 implementation an unopenable counters file
yields FAILURE (no debug message) and an empty sequence, and every completed
call with an opened file yields SUCCESS; the V1.1 implementation instead
returns SUCCESS with an empty sequence when the file cannot be opened. -/
theorem cpuUsages_open_failure_behavior (online : Nat → Option String) :
    v20GetCpuUsages none online =
      some ({ code := .FAILURE, debugMessage := "" }, []) ∧
    (∀ lines st us, v20GetCpuUsages (some lines) online = some (st, us) →
      st = { code := .SUCCESS, debugMessage := "" }) ∧
    v11GetCpuUsages none online =
      some ({ code := .SUCCESS, debugMessage := "" }, []) := by
  refine ⟨rfl, ?_, rfl⟩
  intro lines st us h
  unfold v20GetCpuUsages at h
  rw [Option.map_eq_some'] at h
  obtain ⟨us', -, h2⟩ := h
  injection h2 with h3 h4
  exact h3.symm

/-- C5 witness: a well-formed one-line counters file yields SUCCESS. -/
theorem cpuUsages_open_failure_behavior_w :
    ({ code := .SUCCESS, debugMessage := "" } : ThermalStatus) =
      { code := .SUCCESS, debugMessage := "" } :=
  (cpuUsages_open_failure_behavior (fun _ => none)).2.1 ["cpu0 1 2 3 4"]
    { code := .SUCCESS, debugMessage := "" }
    [{ name := "CPU0", active := 6, total := 10, isOnline := true }] (by decide)

/-- C6 counterexample: the line "cpu0 12 34" matches the cpu-digit prefix but
not the full five-integer pattern; the V1.1 implementation aborts the whole
call with FAILURE / strerror(-EIO) = "Unknown error -5" instead of skipping
it, while the V2.0 implementation skips it and stays SUCCESS. -/
theorem cpuUsages_malformed_line_cex :
    v11GetCpuUsages (some ["cpu0 12 34"]) (fun _ => none) =
      some ({ code := .FAILURE, debugMessage := "Unknown error -5" }, []) ∧
    v20GetCpuUsages (some ["cpu0 12 34"]) (fun _ => none) =
      some ({ code := .SUCCESS, debugMessage := "" }, []) :=
  ⟨by decide, by decide⟩

/-- C6 (amended): in the V2.0 implementation any line the regex does not match
is skipped with no effect on the result, and in the V1.1 implementation a line
whose five-conversion sscanf comes up short aborts the call with FAILURE and
the samples collected so far. -/
theorem cpuUsages_malformed_line_skipped (online : Nat → Option String) :
    (∀ pre post bad, regexSearch bad.data = none →
      v20GetCpuUsages (some (pre ++ bad :: post)) online =
        v20GetCpuUsages (some (pre ++ post)) online) ∧
    (∀ l ls acc, v11LineStep online l = .abort →
      v11ProcessLines online (l :: ls) acc =
        some ({ code := .FAILURE, debugMessage := "Unknown error -5" }, acc)) := by
  constructor
  · intro pre post bad hbad
    simp only [v20GetCpuUsages]
    rw [v20ProcessLines_skip online pre post bad [] hbad]
  · intro l ls acc habort
    rw [v11ProcessLines, habort]
    rfl

/-- C6 witness: the malformed "cpu0 12 34" is dropped by the V2.0 loop in the
presence of a following well-formed line, and aborts the V1.1 loop. -/
theorem cpuUsages_malformed_line_skipped_w :
    v20GetCpuUsages (some ([] ++ "cpu0 12 34" :: ["cpu0 1 2 3 4"])) (fun _ => none) =
      v20GetCpuUsages (some ([] ++ ["cpu0 1 2 3 4"])) (fun _ => none) ∧
    v11ProcessLines (fun _ => none) ["cpu0 12 34"] [] =
      some ({ code := .FAILURE, debugMessage := "Unknown error -5" }, []) :=
  ⟨(cpuUsages_malformed_line_skipped (fun _ => none)).1 [] ["cpu0 1 2 3 4"]
      "cpu0 12 34" (by decide),
   (cpuUsages_malformed_line_skipped (fun _ => none)).2 "cpu0 12 34" [] [] (by decide)⟩

/-- C7: the entry-handling claim fails on both implementations.  The V2.0
helper re-opens an already-open ifstream, which always sets failbit, so even a
perfectly well-formed thermal_zone entry produces no sample (the query always
reports zero samples); and the V1.1 implementation passes the NULL result of
fopen straight to fscanf when the type file is missing — undefined behaviour
instead of a silent skip.  The V1.1 implementation does produce exactly one
sample for the same well-formed entry. -/
theorem getTemperatures_entry_handling_bug :
    getTemperaturesHelper [⟨"thermal_zone0", some "45000", some "cpu"⟩] = [] ∧
    v20GetTemperatures [⟨"thermal_zone0", some "45000", some "cpu"⟩] =
      ({ code := .FAILURE, debugMessage := "Unknown error -2" }, []) ∧
    v11GetTemperatures (some [⟨"thermal_zone0", some "45000", none⟩]) = none ∧
    v11GetTemperatures (some [⟨"thermal_zone0", some "45000", some "cpu"⟩]) =
      some ({ code := .SUCCESS, debugMessage := "" },
        [mkTemperature_1_0 "cpu" (.val 45000)]) :=
  ⟨by decide, by decide, by decide, by decide⟩

/-- C8: a register call for an identity already present fails (whatever the
new filter settings) and leaves the registry unchanged — in particular a
single existing registration stays single — and an unregister call for an
absent identity fails and leaves the registry unchanged. -/
theorem callbackRegistry_conflict_handling (cbs : List CallbackSetting) (h : Nat)
    (filterType : Bool) (ty : TemperatureType) :
    (cbs.any (fun c => c.callback == h) = true →
      registerThermalChangedCallback cbs (some h) filterType ty =
        ({ code := .FAILURE,
           debugMessage := "Same callback interface registered already" }, cbs)) ∧
    ((cbs.countP fun c => c.callback == h) = 1 →
      ((registerThermalChangedCallback cbs (some h) filterType ty).2.countP
        fun c => c.callback == h) = 1) ∧
    (cbs.any (fun c => c.callback == h) = false →
      unregisterThermalChangedCallback cbs (some h) =
        ({ code := .FAILURE,
           debugMessage := "The callback was not registered before" }, cbs)) := by
  refine ⟨?_, ?_, ?_⟩
  · intro hin
    unfold registerThermalChangedCallback
    simp only [hin, if_true]
  · intro hcount
    have hin : cbs.any (fun c => c.callback == h) = true := by
      rw [List.any_eq_true]
      have hpos : 0 < cbs.countP (fun c => c.callback == h) := by omega
      obtain ⟨a, ha, hpa⟩ := List.countP_pos_iff.mp hpos
      exact ⟨a, ha, hpa⟩
    unfold registerThermalChangedCallback
    simp only [hin, if_true]
    exact hcount
  · intro hout
    unfold unregisterThermalChangedCallback
    have hfilter : cbs.filter (fun c => !(c.callback == h)) = cbs := by
      rw [List.filter_eq_self]
      intro a ha
      rw [List.any_eq_false] at hout
      simp [hout a ha]
    simp only [hout, if_false, hfilter]
    rfl

/-- C8 witness: a one-registration registry rejects a duplicate of handle 1
(with different filter settings) and rejects unregistering absent handle 2. -/
theorem callbackRegistry_conflict_handling_w :
    registerThermalChangedCallback [⟨1, false, .CPU⟩] (some 1) true .GPU =
      ({ code := .FAILURE,
         debugMessage := "Same callback interface registered already" },
        [⟨1, false, .CPU⟩]) ∧
    unregisterThermalChangedCallback [⟨1, false, .CPU⟩] (some 2) =
      ({ code := .FAILURE,
         debugMessage := "The callback was not registered before" },
        [⟨1, false, .CPU⟩]) :=
  ⟨(callbackRegistry_conflict_handling [⟨1, false, .CPU⟩] 1 true .GPU).1 (by decide),
   (callbackRegistry_conflict_handling [⟨1, false, .CPU⟩] 2 true .GPU).2.2 (by decide)⟩

/-- C9 counterexample: ticks are parsed as arbitrary uint64 values, so
active + idle wraps: "cpu0 5 0 0 18446744073709551615" yields a sample with
active = 5 but total = 4, violating total ≥ active. -/
theorem cpuUsage_ticks_wraparound_cex :
    v11GetCpuUsages (some ["cpu0 5 0 0 18446744073709551615"])
        (fun n => if n = 0 then some "1" else none) =
      some ({ code := .SUCCESS, debugMessage := "" },
        [{ name := "CPU0", active := 5, total := 4, isOnline := true }]) ∧
    ¬ (5 : Nat) ≤ 4 :=
  ⟨by decide, by decide⟩

/-- C9 (amended): total_ticks ≥ active_ticks holds for every sample whose four
tick counters sum below 2^64; beyond that the uint64 additions wrap and the
inequality can fail. -/
theorem cpuTicks_total_ge_active (user nice system idle : Nat)
    (h : user + nice + system + idle < u64Mod) :
    cpuActiveTicks user nice system ≤ cpuTotalTicks user nice system idle := by
  have h64 : u64Mod = 18446744073709551616 := rfl
  rw [h64] at h
  unfold cpuTotalTicks cpuActiveTicks
  rw [h64]
  rw [Nat.mod_eq_of_lt (by omega), Nat.mod_eq_of_lt (by omega)]
  omega

/-- C9 witness: the invariant at small tick counts. -/
theorem cpuTicks_total_ge_active_w :
    cpuActiveTicks 1 2 3 ≤ cpuTotalTicks 1 2 3 4 :=
  cpuTicks_total_ge_active 1 2 3 4 (by decide)

/-- C10: the V1.1 callback store is the single static slot sThermalCb: a null
registration leaves the slot untouched and sends nothing, a non-null one
overwrites whatever was stored — no duplicate check, no error — and sends one
notifyThrottling(false, ...) notification. -/
theorem v11RegisterCallback_overwrite (slot : Option Nat) (h : Nat) :
    v11RegisterThermalCallback slot none = (slot, none) ∧
    v11RegisterThermalCallback slot (some h) =
      (some h, some (false, v11NotifyTemperature)) :=
  ⟨rfl, rfl⟩
